import Mathlib

/-!
# OpenLKAS — verification of the lane-keeping core

Shallow embedding of the OpenLKAS per-frame pipeline (`src/utils.py`,
`src/lane_detector.py`, `src/audio_alert.py`, `src/main.py`).  Pixel
coordinates, offsets, thresholds and timestamps are modelled as rationals;
Python `None` becomes `Option`; Python truthiness on optional floats is
modelled explicitly (both `None` and `0.0` are falsy).
-/

namespace OpenLKAS

/-- A detected line segment `(x1, y1, x2, y2)` (from `utils.py`,
`calculate_lane_center`'s input).  Coordinates are rationals. -/
structure LineSeg where
  x1 : ℚ
  y1 : ℚ
  x2 : ℚ
  y2 : ℚ
deriving DecidableEq, Repr

/-- `utils.calculate_center_offset`: `lane_center - image_center`. -/
def calculate_center_offset (lane_center image_center : ℚ) : ℚ :=
  lane_center - image_center

/-- `utils.is_lane_departure`: `abs(offset) > threshold`. -/
def is_lane_departure (offset threshold : ℚ) : Bool :=
  decide (|offset| > threshold)

/-- Classification performed by the loop body of `utils.calculate_lane_center`:
`none` when the segment is discarded (`continue`), `some true` when it is
appended to `left_lines`, `some false` when appended to `right_lines`.
The Python slope is `(y2-y1)/(x2-x1)`, with the sentinel `float('inf')`
when `x2 == x1`; `abs(inf) > 2.0` holds, so a vertical segment is discarded. -/
def lineSlopeClass (l : LineSeg) : Option Bool :=
  if l.x2 = l.x1 then
    none
  else
    let slope := (l.y2 - l.y1) / (l.x2 - l.x1)
    if |slope| < 1/2 ∨ |slope| > 2 then none
    else if slope < 0 then some true else some false

/-- The `left_lines` / `right_lines` accumulation loop of
`utils.calculate_lane_center`, preserving input order. -/
def splitLanes : List LineSeg → List LineSeg × List LineSeg
  | [] => ([], [])
  | l :: rest =>
    let (ls, rs) := splitLanes rest
    match lineSlopeClass l with
    | some true => (l :: ls, rs)
    | some false => (ls, l :: rs)
    | none => (ls, rs)

/-- The x-coordinate lists built by `left_x_coords.extend([x1, x2])` in
`utils.calculate_lane_center`. -/
def xCoords : List LineSeg → List ℚ
  | [] => []
  | l :: rest => l.x1 :: l.x2 :: xCoords rest

/-- `np.mean` on a list of rationals (exact arithmetic mean). -/
def meanQ (xs : List ℚ) : ℚ := xs.sum / (xs.length : ℚ)

/-- `utils.calculate_lane_center`.  The Python argument `lines` may be
`None` (`Option`); `image_width` is accepted and unused as in the source. -/
def calculate_lane_center (lines : Option (List LineSeg)) (image_width : ℚ) :
    Option ℚ :=
  match lines with
  | none => none
  | some ls =>
    if ls.length = 0 then none
    else
      let (left_lines, right_lines) := splitLanes ls
      let left_center : Option ℚ :=
        if left_lines.isEmpty then none else some (meanQ (xCoords left_lines))
      let right_center : Option ℚ :=
        if right_lines.isEmpty then none else some (meanQ (xCoords right_lines))
      match left_center, right_center with
      | some lc, some rc => some ((lc + rc) / 2)
      | some lc, none => some (lc + 100)
      | none, some rc => some (rc - 100)
      | none, none => none

/-- The persistent detector state of `lane_detector.LaneDetector`:
`last_lane_center`, `smoothing_factor`, `departure_threshold`. -/
structure DetectorState where
  last_lane_center : Option ℚ
  smoothing_factor : ℚ
  departure_threshold : ℚ
deriving DecidableEq, Repr

/-- `LaneDetector.__init__` state: `last_lane_center = None`,
`smoothing_factor = 0.7`, given departure threshold. -/
def init_detector (threshold : ℚ) : DetectorState :=
  ⟨none, 7/10, threshold⟩

/-- The per-frame result dictionary of `LaneDetector` (`_calculate_drift`
plus the `processed_frame` key added by `detect_lanes`). -/
structure FrameRes where
  lines : Option (List LineSeg)
  lane_center : Option ℚ
  image_center : Option ℚ
  offset : ℚ
  off_lane : Bool
  processed_frame : Option Unit
deriving DecidableEq, Repr

/-- `LaneDetector._calculate_drift`: temporal smoothing, fallback, offset and
departure classification.  Returns the result record and the updated state.
The fallback `self.last_lane_center if self.last_lane_center else image_center`
is a Python truthiness test: both `None` and `0.0` select `image_center`. -/
def calculate_drift (st : DetectorState) (width : ℚ)
    (lines : Option (List LineSeg)) : FrameRes × DetectorState :=
  let image_center := width / 2
  let lc0 : Option ℚ :=
    if lines.isSome then calculate_lane_center lines width else none
  let lc1 : Option ℚ :=
    match lc0, st.last_lane_center with
    | some e, some p =>
        some (st.smoothing_factor * p + (1 - st.smoothing_factor) * e)
    | _, _ => lc0
  match lc1 with
  | some v =>
    let offset := calculate_center_offset v image_center
    (⟨lines, some v, some image_center, offset,
      is_lane_departure offset st.departure_threshold, none⟩,
     { st with last_lane_center := some v })
  | none =>
    let acc : ℚ :=
      match st.last_lane_center with
      | some p => if p = 0 then image_center else p
      | none => image_center
    let offset := calculate_center_offset acc image_center
    (⟨lines, some acc, some image_center, offset,
      is_lane_departure offset st.departure_threshold, none⟩, st)

/-- `LaneDetector._empty_result`. -/
def empty_result : FrameRes :=
  ⟨none, none, none, 0, false, none⟩

/-- `LaneDetector.update_threshold`: stores the new threshold as given. -/
def update_threshold (st : DetectorState) (new_threshold : ℚ) : DetectorState :=
  { st with departure_threshold := new_threshold }

/-- A captured frame as the detection pipeline sees it: its width together
with the line segments the external Canny/Hough capabilities produce for it
(`None` when `HoughLinesP` finds no lines). -/
structure Frame where
  width : ℚ
  lines : Option (List LineSeg)
deriving DecidableEq, Repr

/-- `LaneDetector.detect_lanes`: a `None` frame, or an exception raised in
the preprocessing stages (modelled by the oracle flag `err`), yields
`_empty_result` with the state untouched; otherwise `_calculate_drift` runs
and `processed_frame` is attached. -/
def detect_lanes (st : DetectorState) (frame : Option Frame) (err : Bool) :
    FrameRes × DetectorState :=
  match frame with
  | none => (empty_result, st)
  | some f =>
    if err then (empty_result, st)
    else
      let (res, st') := calculate_drift st f.width f.lines
      ({ res with processed_frame := some () }, st')

/-- Iterating `_calculate_drift` over a sequence of frames, each given as
`(width, lines)`; tracks only the evolving detector state. -/
def run_detector (st : DetectorState) :
    List (ℚ × Option (List LineSeg)) → DetectorState
  | [] => st
  | (w, lines) :: rest => run_detector (calculate_drift st w lines).2 rest

end OpenLKAS

namespace OpenLKAS

/-- Audio configuration of `audio_alert.AudioAlert` (the fields the update
operations touch). -/
structure AudioConfig where
  frequency : ℤ
  duration : ℚ
  volume : ℚ
deriving DecidableEq, Repr

/-- `AudioAlert.update_volume`: clamps to `[0, 1]`. -/
def update_volume (a : AudioConfig) (new_volume : ℚ) : AudioConfig :=
  { a with volume := max 0 (min 1 new_volume) }

/-- `AudioAlert.update_frequency`: clamps to `[100, 2000]` Hz. -/
def update_frequency (a : AudioConfig) (new_frequency : ℤ) : AudioConfig :=
  { a with frequency := max 100 (min 2000 new_frequency) }

/-- `AudioAlert.update_duration`: clamps to `[0.1, 2.0]` seconds. -/
def update_duration (a : AudioConfig) (new_duration : ℚ) : AudioConfig :=
  { a with duration := max (1/10) (min 2 new_duration) }

/-- Commands `LaneDepartureAlert.process_departure` issues to the alert
sink (`AudioAlert`). -/
inductive Cmd where
  | playBeep : Cmd
  | playContinuous : ℚ → Cmd
  | stopContinuous : Cmd
deriving DecidableEq, Repr

/-- State of `audio_alert.LaneDepartureAlert`: `last_departure_state` and
`departure_start_time`. -/
structure AMState where
  last_departure_state : Bool
  departure_start_time : Option ℚ
deriving DecidableEq, Repr

/-- `LaneDepartureAlert.__init__` state. -/
def init_alert : AMState := ⟨false, none⟩

/-- `continuous_alert_threshold = 2.0` seconds. -/
def continuous_alert_threshold : ℚ := 2

/-- `LaneDepartureAlert.process_departure`.  `now` stands for the
`time.time()` read; `sinkThreadAlive` for
`self.audio_alert.alert_thread and self.audio_alert.alert_thread.is_alive()`.
The guard `if (self.departure_start_time and ...)` is a truthiness test:
a start time of `None` or `0.0` disables escalation.  Returns the updated
state and the list of commands issued during the call. -/
def process_departure (st : AMState) (is_departing : Bool)
    (offset now : ℚ) (sinkThreadAlive : Bool) : AMState × List Cmd :=
  if is_departing then
    if !st.last_departure_state then
      (⟨true, some now⟩, [Cmd.playBeep])
    else
      let escalate : Bool :=
        match st.departure_start_time with
        | none => false
        | some s => (!decide (s = 0)) && decide (now - s > continuous_alert_threshold)
      if escalate && !sinkThreadAlive then
        (⟨true, st.departure_start_time⟩, [Cmd.playContinuous 5])
      else
        (⟨true, st.departure_start_time⟩, [])
  else
    if st.last_departure_state then
      (⟨false, none⟩, [Cmd.stopContinuous])
    else
      (⟨false, st.departure_start_time⟩, [])

/-- One input to a `process_departure` call in a trace:
`(is_departing, offset, now, sinkThreadAlive)`. -/
structure AMInput where
  is_departing : Bool
  offset : ℚ
  now : ℚ
  sinkThreadAlive : Bool
deriving DecidableEq, Repr

/-- Driving `process_departure` once per frame over a list of inputs. -/
def run_alert (st : AMState) : List AMInput → AMState
  | [] => st
  | i :: rest =>
    run_alert (process_departure st i.is_departing i.offset i.now
      i.sinkThreadAlive).1 rest

/-- State of the `main.OpenLKAS` loop that the per-frame body touches:
the detector state, the alert-machine state and `frame_count`. -/
structure SysState where
  det : DetectorState
  alert : AMState
  frame_count : ℕ
deriving DecidableEq, Repr

/-- One iteration's inputs to the `main.OpenLKAS.run` loop body:
the `(ret, frame)` pair from `camera.get_frame()`, the wall-clock read and
sink-thread status consumed by `process_departure`, and the preprocessing
error oracle of `detect_lanes`. -/
structure LoopInput where
  ret : Bool
  frame : Option Frame
  now : ℚ
  sinkThreadAlive : Bool
  err : Bool
deriving DecidableEq, Repr

/-- The body of the `while self.running` loop in `main.OpenLKAS.run`:
`if not ret: continue` skips the whole iteration; otherwise
`detect_lanes` runs, its `off_lane`/`offset` feed `process_departure`,
and `frame_count` is incremented. -/
def run_step (st : SysState) (i : LoopInput) : SysState :=
  if !i.ret then st
  else
    let (res, det') := detect_lanes st.det i.frame i.err
    let (alert', _cmds) :=
      process_departure st.alert res.off_lane res.offset i.now i.sinkThreadAlive
    ⟨det', alert', st.frame_count + 1⟩

/-- Iterating the main-loop body over a list of per-iteration inputs. -/
def run_loop (st : SysState) : List LoopInput → SysState
  | [] => st
  | i :: rest => run_loop (run_step st i) rest

/-! ## Spec-side definitions

These follow the wording of the specification (for refinement claims);
they are compared against the source-side definitions above. -/

/-- Modelled from the spec: the derived slope attribute of a `LineSegment`,
`slope = (y2-y1)/(x2-x1)`, with `none` standing for the `+infinity`
sentinel when `x1 == x2`. -/
def segSlopeSpec (l : LineSeg) : Option ℚ :=
  if l.x1 = l.x2 then none else some ((l.y2 - l.y1) / (l.x2 - l.x1))

/-- Spec wording: a segment is kept unless `|slope| < 0.5` or
`|slope| > 2.0` (with `|+infinity|` above 2.0, hence discarded). -/
def segKeptSpec (l : LineSeg) : Bool :=
  match segSlopeSpec l with
  | none => false
  | some s => !(decide (|s| < 1/2) || decide (|s| > 2))

/-- Spec wording: a kept segment with negative slope goes to the left set. -/
def segLeftSpec (l : LineSeg) : Bool :=
  segKeptSpec l && decide ((segSlopeSpec l).getD 0 < 0)

/-- Spec wording: a kept segment with non-negative slope goes to the right
set. -/
def segRightSpec (l : LineSeg) : Bool :=
  segKeptSpec l && decide (0 ≤ (segSlopeSpec l).getD 0)

/-- The lane-center estimator as the specification words it: discard by
slope band, classify by slope sign, average the `x1,x2` endpoints of each
non-empty side, then apply the four-way resolution policy. -/
def laneCenterSpec (lines : Option (List LineSeg)) (_image_width : ℚ) :
    Option ℚ :=
  match lines with
  | none => none
  | some ls =>
    if ls.length = 0 then none
    else
      let L := ls.filter segLeftSpec
      let R := ls.filter segRightSpec
      if L ≠ [] ∧ R ≠ [] then
        some ((meanQ (xCoords L) + meanQ (xCoords R)) / 2)
      else if L ≠ [] then some (meanQ (xCoords L) + 100)
      else if R ≠ [] then some (meanQ (xCoords R) - 100)
      else none

end OpenLKAS

namespace OpenLKAS

/-! ## Lemmas -/

lemma segLeftSpec_true_iff (l : LineSeg) :
    segLeftSpec l = true ↔ lineSlopeClass l = some true := by
  unfold segLeftSpec segKeptSpec segSlopeSpec lineSlopeClass
  by_cases hx : l.x2 = l.x1
  · rw [if_pos hx, if_pos hx.symm]
    simp
  · rw [if_neg hx, if_neg (fun h => hx h.symm)]
    by_cases hband :
        |(l.y2 - l.y1) / (l.x2 - l.x1)| < 1/2 ∨ |(l.y2 - l.y1) / (l.x2 - l.x1)| > 2
    · rw [if_pos hband]
      rcases hband with h | h
      · have hd : decide (|(l.y2 - l.y1) / (l.x2 - l.x1)| < 1/2) = true :=
          decide_eq_true h
        simp [hd]
        intro h1' h2'
        linarith
      · have hd : decide (|(l.y2 - l.y1) / (l.x2 - l.x1)| > 2) = true :=
          decide_eq_true h
        simp [hd]
    · rw [if_neg hband]
      obtain ⟨h1, h2⟩ := not_or.mp hband
      by_cases hneg : (l.y2 - l.y1) / (l.x2 - l.x1) < 0
      · rw [if_pos hneg]
        simp [h1, h2, hneg]
        linarith [not_lt.mp h1]
      · rw [if_neg hneg]
        simp [h1, h2, hneg]

lemma segRightSpec_true_iff (l : LineSeg) :
    segRightSpec l = true ↔ lineSlopeClass l = some false := by
  unfold segRightSpec segKeptSpec segSlopeSpec lineSlopeClass
  by_cases hx : l.x2 = l.x1
  · rw [if_pos hx, if_pos hx.symm]
    simp
  · rw [if_neg hx, if_neg (fun h => hx h.symm)]
    by_cases hband :
        |(l.y2 - l.y1) / (l.x2 - l.x1)| < 1/2 ∨ |(l.y2 - l.y1) / (l.x2 - l.x1)| > 2
    · rw [if_pos hband]
      rcases hband with h | h
      · have hd : decide (|(l.y2 - l.y1) / (l.x2 - l.x1)| < 1/2) = true :=
          decide_eq_true h
        simp [hd]
        intro h1' h2'
        linarith
      · have hd : decide (|(l.y2 - l.y1) / (l.x2 - l.x1)| > 2) = true :=
          decide_eq_true h
        simp [hd]
    · rw [if_neg hband]
      obtain ⟨h1, h2⟩ := not_or.mp hband
      by_cases hneg : (l.y2 - l.y1) / (l.x2 - l.x1) < 0
      · rw [if_pos hneg]
        simp [h1, h2, hneg]
      · rw [if_neg hneg]
        simp [h1, h2, not_lt.mp hneg]
        linarith [not_lt.mp h1]

lemma splitLanes_eq (ls : List LineSeg) :
    splitLanes ls = (ls.filter segLeftSpec, ls.filter segRightSpec) := by
  induction ls with
  | nil => rfl
  | cons l rest ih =>
    have h1 := segLeftSpec_true_iff l
    have h2 := segRightSpec_true_iff l
    rcases hcl : lineSlopeClass l with _ | b
    · rw [hcl] at h1 h2
      simp only [splitLanes, hcl, ih, List.filter_cons]
      simp [h1, h2]
    · rw [hcl] at h1 h2
      cases b
      · simp only [splitLanes, hcl, ih, List.filter_cons]
        simp [h1, h2]
      · simp only [splitLanes, hcl, ih, List.filter_cons]
        simp [h1, h2]

lemma calculate_lane_center_eq_spec (lines : Option (List LineSeg)) (w : ℚ) :
    calculate_lane_center lines w = laneCenterSpec lines w := by
  cases lines with
  | none => rfl
  | some ls =>
    simp only [calculate_lane_center, laneCenterSpec]
    by_cases hlen : ls.length = 0
    · simp [hlen]
    · rw [if_neg hlen, if_neg hlen, splitLanes_eq]
      by_cases hL : ls.filter segLeftSpec = [] <;>
        by_cases hR : ls.filter segRightSpec = [] <;>
          simp [hL, hR, List.isEmpty_iff]

end OpenLKAS

namespace OpenLKAS

/-! ## Claim theorems -/

/-- C1: the lane-center estimator discards segments with `|slope| < 0.5` or
`|slope| > 2.0` (vertical segments counting as slope `+infinity`), sends
negative slopes left and non-negative slopes right, averages the `x1,x2`
endpoints of each non-empty side, and resolves to the midpoint / `left+100` /
`right-100` / absent; left mean 300 alone gives 400, right mean 700 alone
gives 600, both give 500, and no segments give an absent result. -/
theorem C1_lane_center_estimator :
    (∀ (lines : Option (List LineSeg)) (w : ℚ),
      calculate_lane_center lines w = laneCenterSpec lines w) ∧
    calculate_lane_center (some [⟨250, 100, 350, 0⟩]) 1280 = some 400 ∧
    calculate_lane_center (some [⟨650, 0, 750, 100⟩]) 1280 = some 600 ∧
    calculate_lane_center (some [⟨250, 100, 350, 0⟩, ⟨650, 0, 750, 100⟩]) 1280
      = some 500 ∧
    calculate_lane_center (some []) 1280 = none ∧
    calculate_lane_center none 1280 = none := by
  refine ⟨calculate_lane_center_eq_spec, ?_, ?_, ?_, rfl, rfl⟩ <;>
    norm_num [calculate_lane_center, splitLanes, lineSlopeClass, xCoords, meanQ]

/-- C4: `calculate_center_offset` is exactly `lane_center - image_center`
and `is_lane_departure` holds iff `|offset| > threshold` with strict
inequality; `offset(100,50) = 50`, `is_departure(60,50)`,
`¬is_departure(30,50)`, and the boundary `¬is_departure(50,50)`. -/
theorem C4_offset_and_departure :
    (∀ lane_center image_center : ℚ,
      calculate_center_offset lane_center image_center
        = lane_center - image_center) ∧
    (∀ offset threshold : ℚ,
      is_lane_departure offset threshold = true ↔ |offset| > threshold) ∧
    calculate_center_offset 100 50 = 50 ∧
    is_lane_departure 60 50 = true ∧
    is_lane_departure 30 50 = false ∧
    is_lane_departure 50 50 = false := by
  refine ⟨fun _ _ => rfl, fun o t => by simp [is_lane_departure], ?_, ?_, ?_, ?_⟩ <;>
    norm_num [calculate_center_offset, is_lane_departure]

/-- C5 counterexample: a departure-threshold update is NOT validated or
clamped — `update_threshold` with the nonsensical value `-10` stores the raw
`-10`, and the next classification uses it (a perfectly centred frame, with
offset `0`, is then flagged as a departure). -/
theorem C5_counterexample :
    (update_threshold (init_detector 50) (-10)).departure_threshold = -10 ∧
    ((-10 : ℚ) < 0) ∧
    (calculate_drift (update_threshold (init_detector 50) (-10)) 1280 none).1.offset
      = 0 ∧
    (calculate_drift (update_threshold (init_detector 50) (-10)) 1280 none).1.off_lane
      = true := by
  refine ⟨rfl, by norm_num, ?_, ?_⟩ <;>
    norm_num [calculate_drift, calculate_lane_center, calculate_center_offset,
      is_lane_departure, update_threshold, init_detector]

/-- C5 amended: the audio configuration updates are validated and clamped at
the configuration boundary (volume to `[0,1]`, frequency to `[100,2000]`,
duration to `[0.1,2.0]`), but the departure-threshold update stores the raw
value without validation; an out-of-range threshold therefore propagates to
the next classification, though it raises no runtime fault. -/
theorem C5_amended :
    (∀ (a : AudioConfig) (v : ℚ),
      (update_volume a v).volume = max 0 (min 1 v) ∧
      0 ≤ (update_volume a v).volume ∧ (update_volume a v).volume ≤ 1) ∧
    (∀ (a : AudioConfig) (f : ℤ),
      100 ≤ (update_frequency a f).frequency ∧
      (update_frequency a f).frequency ≤ 2000) ∧
    (∀ (a : AudioConfig) (d : ℚ),
      1/10 ≤ (update_duration a d).duration ∧
      (update_duration a d).duration ≤ 2) ∧
    (∀ (st : DetectorState) (v : ℚ),
      (update_threshold st v).departure_threshold = v) :=
  ⟨fun a v => ⟨rfl, le_max_left 0 _, max_le (by norm_num) (min_le_left 1 v)⟩,
   fun a f => ⟨le_max_left 100 _, max_le (by norm_num) (min_le_left 2000 f)⟩,
   fun a d => ⟨le_max_left (1/10) _, max_le (by norm_num) (min_le_left 2 d)⟩,
   fun st v => rfl⟩

end OpenLKAS

namespace OpenLKAS

lemma calculate_drift_last (st : DetectorState) (w : ℚ)
    (lines : Option (List LineSeg)) :
    (calculate_drift st w lines).2.last_lane_center =
      match (if lines.isSome then calculate_lane_center lines w else none),
            st.last_lane_center with
      | some e, some p =>
          some (st.smoothing_factor * p + (1 - st.smoothing_factor) * e)
      | some e, none => some e
      | none, x => x := by
  unfold calculate_drift
  cases h0 : (if lines.isSome then calculate_lane_center lines w else none) with
  | none => cases st.last_lane_center <;> rfl
  | some e => cases st.last_lane_center <;> rfl

lemma calculate_drift_sticky (st : DetectorState) (w : ℚ)
    (lines : Option (List LineSeg)) (h : st.last_lane_center.isSome = true) :
    ((calculate_drift st w lines).2.last_lane_center).isSome = true := by
  rw [calculate_drift_last]
  cases h0 : (if lines.isSome then calculate_lane_center lines w else none) with
  | none => cases hsl : st.last_lane_center with
    | none => rw [hsl] at h; exact h
    | some p => simp
  | some e => cases st.last_lane_center <;> simp

lemma run_detector_sticky :
    ∀ (inputs : List (ℚ × Option (List LineSeg))) (st : DetectorState),
      st.last_lane_center.isSome = true →
      ((run_detector st inputs).last_lane_center).isSome = true
  | [], _, h => h
  | (w, lines) :: rest, st, h =>
    run_detector_sticky rest _ (calculate_drift_sticky st w lines h)

/-- C3 counterexample: with `last_lane_center` previously set to the accepted
value `0.0` and an absent new estimate, the accepted centre is
`image_center` (640 for width 1280), not the stored `0.0` — the fallback is
a Python truthiness test, so the claim's "including 0.0" fails. -/
theorem C3_counterexample :
    (⟨some 0, 7/10, 50⟩ : DetectorState).last_lane_center = some 0 ∧
    (calculate_drift ⟨some 0, 7/10, 50⟩ 1280 none).1.lane_center = some 640 ∧
    (some (640 : ℚ) ≠ some (0 : ℚ)) := by
  refine ⟨rfl, ?_, by norm_num⟩
  norm_num [calculate_drift, calculate_center_offset, is_lane_departure]

/-- C3 amended: when the new estimate is absent, the detector state is left
unchanged and the accepted centre is `last_lane_center` when it is set to a
nonzero value; when `last_lane_center` is unset or equal to `0.0` (Python
truthiness conflates the two) the accepted centre is `image_center = w/2`.
Moreover `last_lane_center`, once set, stays set across every sequence of
frames: it is only ever overwritten by a frame with a real estimate. -/
theorem C3_absent_estimate_fallback (st : DetectorState) (w : ℚ)
    (lines : Option (List LineSeg))
    (h : (if lines.isSome then calculate_lane_center lines w else none) = none) :
    (calculate_drift st w lines).2 = st ∧
    (calculate_drift st w lines).1.lane_center =
      some (match st.last_lane_center with
            | some p => if p = 0 then w / 2 else p
            | none => w / 2) ∧
    ∀ (st2 : DetectorState) (inputs : List (ℚ × Option (List LineSeg))),
      st2.last_lane_center.isSome = true →
      ((run_detector st2 inputs).last_lane_center).isSome = true := by
  refine ⟨?_, ?_, fun st2 inputs h2 => run_detector_sticky inputs st2 h2⟩ <;>
    simp [calculate_drift, h]

/-- C3 witness: instantiating the amended fallback at a state with stored
centre 3, width 1280 and no lines. -/
theorem C3_absent_estimate_fallback_witness :
    (calculate_drift ⟨some 3, 7/10, 50⟩ 1280 none).2
      = (⟨some 3, 7/10, 50⟩ : DetectorState) ∧
    (calculate_drift ⟨some 3, 7/10, 50⟩ 1280 none).1.lane_center = some 3 ∧
    ((run_detector ⟨some 3, 7/10, 50⟩ [(720, none)]).last_lane_center).isSome
      = true := by
  obtain ⟨h1, h2, h3⟩ :=
    C3_absent_estimate_fallback ⟨some 3, 7/10, 50⟩ 1280 none rfl
  refine ⟨h1, ?_, h3 ⟨some 3, 7/10, 50⟩ [(720, none)] rfl⟩
  rw [h2]
  norm_num

end OpenLKAS

namespace OpenLKAS

lemma calculate_drift_const_last (st : DetectorState) (w E : ℚ)
    (lines : Option (List LineSeg))
    (hE : (if lines.isSome then calculate_lane_center lines w else none) = some E)
    (hL : st.last_lane_center = some E) :
    (calculate_drift st w lines).2.last_lane_center = some E := by
  rw [calculate_drift_last, hE, hL]
  show some (st.smoothing_factor * E + (1 - st.smoothing_factor) * E) = some E
  congr 1
  ring

lemma run_detector_const (w E : ℚ) (lines : Option (List LineSeg))
    (hE : (if lines.isSome then calculate_lane_center lines w else none) = some E) :
    ∀ (n : ℕ) (st : DetectorState), st.last_lane_center = some E →
      (run_detector st (List.replicate n (w, lines))).last_lane_center = some E
  | 0, _, hL => hL
  | n + 1, st, hL => by
    rw [List.replicate_succ]
    exact run_detector_const w E lines hE n _
      (calculate_drift_const_last st w E lines hE hL)

/-- C7: the temporal blend has the accepted centre as a fixed point under
constant input: with `last_lane_center = E` and a frame whose estimate is
again `E`, `smoothing_factor * E + (1 - smoothing_factor) * E = E` exactly,
the accepted centre is `E`, `last_lane_center` stays `E`, and iterating the
same frame any number of times keeps it at `E`. -/
theorem C7_smoothing_fixed_point (st : DetectorState) (w E : ℚ)
    (lines : Option (List LineSeg))
    (hE : (if lines.isSome then calculate_lane_center lines w else none) = some E)
    (hL : st.last_lane_center = some E) :
    st.smoothing_factor * E + (1 - st.smoothing_factor) * E = E ∧
    (calculate_drift st w lines).1.lane_center = some E ∧
    (calculate_drift st w lines).2.last_lane_center = some E ∧
    ∀ n : ℕ,
      (run_detector st (List.replicate n (w, lines))).last_lane_center
        = some E := by
  refine ⟨by ring, ?_, calculate_drift_const_last st w E lines hE hL,
    fun n => run_detector_const w E lines hE n st hL⟩
  unfold calculate_drift
  rw [hE, hL]
  show some (st.smoothing_factor * E + (1 - st.smoothing_factor) * E) = some E
  congr 1
  ring

/-- C7 witness: a left-only frame with mean endpoint 300 yields the estimate
400; starting from `last_lane_center = 400` the accepted centre and the
stored centre stay 400, also after three more identical frames. -/
theorem C7_smoothing_fixed_point_witness :
    (calculate_drift ⟨some 400, 7/10, 50⟩ 1280
        (some [⟨250, 100, 350, 0⟩])).1.lane_center = some 400 ∧
    (calculate_drift ⟨some 400, 7/10, 50⟩ 1280
        (some [⟨250, 100, 350, 0⟩])).2.last_lane_center = some 400 ∧
    (run_detector ⟨some 400, 7/10, 50⟩
        (List.replicate 3 (1280, some [⟨250, 100, 350, 0⟩]))).last_lane_center
      = some 400 := by
  obtain ⟨_, h2, h3, h4⟩ :=
    C7_smoothing_fixed_point ⟨some 400, 7/10, 50⟩ 1280 400
      (some [⟨250, 100, 350, 0⟩])
      (by norm_num [calculate_lane_center, splitLanes, lineSlopeClass,
        xCoords, meanQ])
      rfl
  exact ⟨h2, h3, h4 3⟩

lemma calculate_drift_off_lane (st : DetectorState) (w : ℚ)
    (lines : Option (List LineSeg)) :
    (calculate_drift st w lines).1.off_lane
      = is_lane_departure ((calculate_drift st w lines).1.offset)
          st.departure_threshold := by
  unfold calculate_drift
  cases h0 : (if lines.isSome then calculate_lane_center lines w else none) with
  | none => cases st.last_lane_center <;> rfl
  | some e => cases st.last_lane_center <;> rfl

/-- C8: after `update_threshold t`, the very next classification uses `t`
(`off_lane = is_lane_departure offset t`, no stale read); the update touches
nothing else in the state, and a classification performed before the update
used the old threshold (results already produced are unaffected). -/
theorem C8_threshold_round_trip (st : DetectorState) (t w : ℚ)
    (lines : Option (List LineSeg)) :
    ((calculate_drift (update_threshold st t) w lines).1.off_lane
      = is_lane_departure
          ((calculate_drift (update_threshold st t) w lines).1.offset) t) ∧
    (update_threshold st t).last_lane_center = st.last_lane_center ∧
    (update_threshold st t).smoothing_factor = st.smoothing_factor ∧
    ((calculate_drift st w lines).1.off_lane
      = is_lane_departure ((calculate_drift st w lines).1.offset)
          st.departure_threshold) :=
  ⟨calculate_drift_off_lane (update_threshold st t) w lines, rfl, rfl,
   calculate_drift_off_lane st w lines⟩

/-- C9: when `get_frame()` reports failure (`ret = false`), the loop body is
a no-op — no detection runs, neither the detector state nor the alert state
nor the frame count advances — and the loop simply proceeds to the next
iteration. -/
theorem C9_failed_frame_skipped :
    (∀ (st : SysState) (frame : Option Frame) (now : ℚ) (alive err : Bool),
      run_step st ⟨false, frame, now, alive, err⟩ = st) ∧
    (∀ (st : SysState) (frame : Option Frame) (now : ℚ) (alive err : Bool)
      (rest : List LoopInput),
      run_loop st (⟨false, frame, now, alive, err⟩ :: rest)
        = run_loop st rest) :=
  ⟨fun _ _ _ _ _ => rfl, fun _ _ _ _ _ _ => rfl⟩

/-- C10: `detect_lanes` on a `None` frame, or on an internal error, returns
the fixed `_empty_result` (offset 0, `off_lane = false`, absent lane centre,
lines and processed frame) without raising; feeding that `off_lane = false`
to the alert machine while a departure is active cancels the alert exactly
like a genuine in-lane frame. -/
theorem C10_error_frame_reported_in_lane :
    (∀ (st : DetectorState) (err : Bool),
      detect_lanes st none err = (empty_result, st)) ∧
    (∀ (st : DetectorState) (f : Frame),
      detect_lanes st (some f) true = (empty_result, st)) ∧
    empty_result.offset = 0 ∧
    empty_result.off_lane = false ∧
    empty_result.lane_center = none ∧
    empty_result.lines = none ∧
    empty_result.processed_frame = none ∧
    (∀ (ds : Option ℚ) (o now : ℚ) (alive : Bool),
      process_departure ⟨true, ds⟩ empty_result.off_lane o now alive
        = (⟨false, none⟩, [Cmd.stopContinuous])) :=
  ⟨fun _ _ => rfl, fun _ _ => rfl, rfl, rfl, rfl, rfl, rfl,
   fun _ _ _ _ => rfl⟩

end OpenLKAS

namespace OpenLKAS

/-- C2: driving `process_departure` once per frame (timestamps are wall-clock
reads, hence positive): entering departure issues exactly one `play_beep` and
records the start time; while departure persists within the 2.0 s escalation
window no command is issued; past 2.0 s with no sink thread alive exactly one
`play_continuous_alert` with duration 5.0 s is issued; and the first
in-lane frame afterwards issues exactly one `stop_continuous_alert` and
clears the start time. -/
theorem C2_alert_state_machine (s : ℚ) (hs : 0 < s) :
    (∀ (ds : Option ℚ) (o now : ℚ) (alive : Bool),
      process_departure ⟨false, ds⟩ true o now alive
        = (⟨true, some now⟩, [Cmd.playBeep])) ∧
    (∀ (o now : ℚ) (alive : Bool), now - s ≤ continuous_alert_threshold →
      process_departure ⟨true, some s⟩ true o now alive
        = (⟨true, some s⟩, [])) ∧
    (∀ (o now : ℚ), now - s > continuous_alert_threshold →
      process_departure ⟨true, some s⟩ true o now false
        = (⟨true, some s⟩, [Cmd.playContinuous 5])) ∧
    (∀ (ds : Option ℚ) (o now : ℚ) (alive : Bool),
      process_departure ⟨true, ds⟩ false o now alive
        = (⟨false, none⟩, [Cmd.stopContinuous])) := by
  refine ⟨fun ds o now alive => rfl, ?_, ?_, fun ds o now alive => rfl⟩
  · intro o now alive h
    have h2 : decide (now - s > continuous_alert_threshold) = false := by
      simp [not_lt.mpr h]
    simp [process_departure, h2]
  · intro o now h
    have h1 : decide (s = 0) = false := by simp [ne_of_gt hs]
    have h2 : decide (now - s > continuous_alert_threshold) = true :=
      decide_eq_true h
    simp [process_departure, h1, h2]

/-- C2 witness: the four transitions at concrete times — enter departure at
t = 1, hold at t = 2 (within the window), escalate at t = 4, return to lane
at t = 5. -/
theorem C2_alert_state_machine_witness :
    process_departure ⟨false, none⟩ true 0 1 false
      = (⟨true, some 1⟩, [Cmd.playBeep]) ∧
    process_departure ⟨true, some 1⟩ true 0 2 false
      = (⟨true, some 1⟩, []) ∧
    process_departure ⟨true, some 1⟩ true 0 4 false
      = (⟨true, some 1⟩, [Cmd.playContinuous 5]) ∧
    process_departure ⟨true, some 1⟩ false 0 5 true
      = (⟨false, none⟩, [Cmd.stopContinuous]) := by
  obtain ⟨h1, h2, h3, h4⟩ := C2_alert_state_machine 1 (by norm_num)
  exact ⟨h1 none 0 1 false,
    h2 0 2 false (by norm_num [continuous_alert_threshold]),
    h3 0 4 (by norm_num [continuous_alert_threshold]),
    h4 (some 1) 0 5 true⟩

lemma process_departure_still (ds : Option ℚ) (o now : ℚ) (alive : Bool) :
    (process_departure ⟨true, ds⟩ true o now alive).1 = ⟨true, ds⟩ := by
  simp only [process_departure, Bool.not_true, Bool.false_eq_true, if_false,
    if_true]
  split <;> rfl

lemma process_departure_inv (st : AMState)
    (h : st.departure_start_time.isSome = st.last_departure_state)
    (b : Bool) (o now : ℚ) (alive : Bool) :
    (((process_departure st b o now alive).1.departure_start_time).isSome
        = (process_departure st b o now alive).1.last_departure_state) ∧
    (process_departure st b o now alive).1.last_departure_state = b := by
  obtain ⟨last, ds⟩ := st
  simp only at h
  cases b with
  | false =>
    cases last with
    | false => simpa [process_departure] using h
    | true => simp [process_departure]
  | true =>
    cases last with
    | false => simp [process_departure]
    | true => rw [process_departure_still]; simpa using h

lemma run_alert_inv :
    ∀ (inputs : List AMInput) (st : AMState),
      st.departure_start_time.isSome = st.last_departure_state →
      ((run_alert st inputs).departure_start_time).isSome
        = (run_alert st inputs).last_departure_state
  | [], _, h => h
  | i :: rest, st, h =>
    run_alert_inv rest _
      (process_departure_inv st h i.is_departing i.offset i.now
        i.sinkThreadAlive).1

lemma run_alert_append (st : AMState) (inputs : List AMInput) (i : AMInput) :
    run_alert st (inputs ++ [i]) =
      (process_departure (run_alert st inputs) i.is_departing i.offset i.now
        i.sinkThreadAlive).1 := by
  induction inputs generalizing st with
  | nil => rfl
  | cons j rest ih => simp [run_alert, ih]

/-- C6: from the initial alert state, after any sequence of
`process_departure` calls the departure-start timestamp is set if and only if
the last processed frame had `off_lane = true` (`last_departure_state`), and
after a frame with `off_lane = b` it is set exactly when `b` is true — so it
is cleared exactly on the transition back to the idle regime. -/
theorem C6_departure_timestamp_invariant :
    (init_alert.departure_start_time.isSome
        = init_alert.last_departure_state) ∧
    (∀ inputs : List AMInput,
      ((run_alert init_alert inputs).departure_start_time).isSome
        = (run_alert init_alert inputs).last_departure_state) ∧
    (∀ (inputs : List AMInput) (i : AMInput),
      ((run_alert init_alert (inputs ++ [i])).departure_start_time).isSome
        = i.is_departing) := by
  refine ⟨rfl, fun inputs => run_alert_inv inputs init_alert rfl, ?_⟩
  intro inputs i
  rw [run_alert_append]
  have h := process_departure_inv (run_alert init_alert inputs)
    (run_alert_inv inputs init_alert rfl) i.is_departing i.offset i.now
    i.sinkThreadAlive
  rw [h.1, h.2]

end OpenLKAS
